import Mathlib

/-!
# bpm.ino : Timer1 tempo engine (`utils.h`, `config.h`)

A shallow embedding of the timer primitives of the MIDI clock generator and the
proofs of its specification's claims.

* Floating point.  `setTimer1Bpm` computes in C `float`.  The embedding models the
  IEEE 754 binary32 format exactly for the values that can occur (non-negative
  numbers, `+∞`, NaN): every operation is the exact rational result rounded to
  nearest, ties to even, to a 24 bit significand, with gradual underflow and
  overflow to `+∞`.
* Registers.  8 bit registers are naturals reduced `% 256`, 16 bit registers are
  naturals reduced `% 65536`; `int` is the 16 bit `int` of avr-gcc.
* Names from headers outside the repository (`CS10`, `WGM12`, `HIGH`, `LOW`, ...)
  are parameters of the embedding.
-/

namespace BpmIno

/-! ## config.h -/

def DEFAULT_BPM : Nat := 120
def MIN_BPM : Nat := 30
def MAX_BPM : Nat := 250

/-! ## binary32 arithmetic -/

/-- A binary32 value; `fin m e` is the number `m * 2 ^ e`.  Only non-negative values
arise in `setTimer1Bpm`, so no sign is carried. -/
inductive F32 where
  | fin (m : Nat) (e : Int)
  | inf
  | nan
deriving DecidableEq, Repr

/-- Position of the leading one bit of `n` (0 for `n < 2`), by recursion on fuel. -/
def log2Fuel : Nat → Nat → Nat
  | 0, _ => 0
  | fuel + 1, n => if n < 2 then 0 else log2Fuel fuel (n / 2) + 1

/-- Floor of the binary logarithm. -/
def ilog2 (n : Nat) : Nat := log2Fuel n n

/-- Integer part of `n / d * 2 ^ s`. -/
def scaledQuot (n d : Nat) (s : Int) : Nat :=
  if 0 ≤ s then (n * 2 ^ s.toNat) / d else n / (d * 2 ^ (-s).toNat)

/-- Remainder and divisor of the division made by `scaledQuot`. -/
def scaledRem (n d : Nat) (s : Int) : Nat × Nat :=
  if 0 ≤ s then ((n * 2 ^ s.toNat) % d, d)
  else (n % (d * 2 ^ (-s).toNat), d * 2 ^ (-s).toNat)

/-- The binary32 number nearest to `n / d * 2 ^ E` (`d ≠ 0`), ties to even.
The scale `s` is chosen so that the integer part of `n / d * 2 ^ s` has 24 bits,
but never below the exponent `-149` of the subnormal numbers; a result at or
above `2 ^ 128` is `+∞`. -/
def round24 (n d : Nat) (E : Int) : F32 :=
  if n = 0 then .fin 0 0 else
  let t : Int := 23 + (ilog2 d : Int) - (ilog2 n : Int)
  let s0 : Int := if scaledQuot n d t < 2 ^ 23 then t + 1 else t
  let s : Int := min s0 (E + 149)
  let q := scaledQuot n d s
  let r := scaledRem n d s
  let m := if r.2 < 2 * r.1 ∨ (2 * r.1 = r.2 ∧ q % 2 = 1) then q + 1 else q
  let e := E - s
  if 104 < e ∨ (e = 104 ∧ 2 ^ 24 ≤ m) then .inf else .fin m e

/-- Conversion of an unsigned integer to `float`. -/
def F32.ofNat (n : Nat) : F32 := round24 n 1 0

/-- The `float` product. -/
def F32.mul : F32 → F32 → F32
  | .fin m1 e1, .fin m2 e2 => round24 (m1 * m2) 1 (e1 + e2)
  | .fin m _, .inf => if m = 0 then .nan else .inf
  | .inf, .fin m _ => if m = 0 then .nan else .inf
  | .inf, .inf => .inf
  | _, _ => .nan

/-- The `float` quotient. -/
def F32.div : F32 → F32 → F32
  | .fin m1 e1, .fin m2 e2 =>
      if m2 = 0 then (if m1 = 0 then .nan else .inf) else round24 m1 m2 (e1 - e2)
  | .fin _ _, .inf => .fin 0 0
  | .inf, .fin _ _ => .inf
  | _, _ => .nan

/-- Integer part of a finite `float` (truncation toward zero); none for `+∞` and NaN. -/
def F32.trunc? : F32 → Option Nat
  | .fin m e => some (if 0 ≤ e then m * 2 ^ e.toNat else m / 2 ^ (-e).toNat)
  | _ => none

/-- Conversion `(uint16_t) x`.  C defines it only when the integer part of `x` fits the
type; otherwise the stored 16 bit value is unspecified and is the parameter `undef`. -/
def F32.toUint16 (undef : Nat) (x : F32) : Nat :=
  match x.trunc? with
  | some v => if v < 65536 then v else undef % 65536
  | none => undef % 65536

/-! ## utils.h : the compare value of `setTimer1Bpm` -/

/-- The local `float bpmMidiTickFrequency = ((float) bpm) / 60.0f * 24.0f;`. -/
def bpmMidiTickFrequency (bpm : Nat) : F32 :=
  ((F32.ofNat bpm).div (F32.ofNat 60)).mul (F32.ofNat 24)

/-- The `float` expression `16000000 / 64 / bpmMidiTickFrequency`: the integer quotient
`16000000 / 64` is converted to `float` and divided. -/
def compareQuotient (bpm : Nat) : F32 :=
  (F32.ofNat (16000000 / 64)).div (bpmMidiTickFrequency bpm)

/-- The local `uint16_t compareValue = 16000000 / 64 / bpmMidiTickFrequency;`. -/
def compareValue (undef bpm : Nat) : Nat :=
  (compareQuotient bpm).toUint16 undef

/-! ## The microcontroller state -/

/-- Bit numbers of the Timer1 registers.  They come from the device header
`<avr/io.h>`, which is not part of the repository, and are parameters here. -/
structure Timer1Bits where
  PRTIM1 : Nat
  WGM10 : Nat
  WGM11 : Nat
  WGM12 : Nat
  WGM13 : Nat
  CS10 : Nat
  CS11 : Nat
  CS12 : Nat
  OCIE1A : Nat

/-- Every name is a bit of an 8 bit register, and names of one register are
different bits (`WGM10`, `WGM11` in `TCCR1A`; `WGM12`, `WGM13`, `CS10`, `CS11`, `CS12`
in `TCCR1B`). -/
@[reducible] def Timer1Bits.WF (b : Timer1Bits) : Prop :=
  (b.PRTIM1 < 8 ∧ b.OCIE1A < 8 ∧ b.WGM10 < 8 ∧ b.WGM11 < 8) ∧
  (b.WGM12 < 8 ∧ b.WGM13 < 8 ∧ b.CS10 < 8 ∧ b.CS11 < 8 ∧ b.CS12 < 8) ∧
  (b.WGM10 ≠ b.WGM11 ∧ b.WGM12 ≠ b.WGM13) ∧
  (b.CS10 ≠ b.CS11 ∧ b.CS10 ≠ b.CS12 ∧ b.CS11 ≠ b.CS12) ∧
  (b.CS10 ≠ b.WGM12 ∧ b.CS11 ≠ b.WGM12 ∧ b.CS12 ≠ b.WGM12) ∧
  (b.CS10 ≠ b.WGM13 ∧ b.CS11 ≠ b.WGM13 ∧ b.CS12 ≠ b.WGM13)

/-- The bit numbers of the ATmega328P. -/
def atmega328p : Timer1Bits :=
  { PRTIM1 := 3, WGM10 := 0, WGM11 := 1, WGM12 := 3, WGM13 := 4,
    CS10 := 0, CS11 := 1, CS12 := 2, OCIE1A := 1 }

/-- The part of the machine the timer primitives and tick handlers act on. -/
structure Avr where
  /-- power reduction register -/
  PRR : Nat
  /-- Timer1 control register A -/
  TCCR1A : Nat
  /-- Timer1 control register B -/
  TCCR1B : Nat
  /-- Timer1 interrupt mask register -/
  TIMSK1 : Nat
  /-- Timer1 counter, 16 bit -/
  TCNT1 : Nat
  /-- Timer1 compare register A, 16 bit -/
  OCR1A : Nat
  /-- global interrupt enable flag of the status register -/
  sregI : Bool
  /-- level driven on each digital pin, true for high -/
  pins : Nat → Bool

/-- Every register holds a value of its width. -/
@[reducible] def Avr.WF (s : Avr) : Prop :=
  s.PRR < 256 ∧ s.TCCR1A < 256 ∧ s.TCCR1B < 256 ∧ s.TIMSK1 < 256 ∧
  s.TCNT1 < 65536 ∧ s.OCR1A < 65536

/-- The 8 bit registers written by the timer primitives. -/
inductive Reg8 where
  | PRR
  | TCCR1A
  | TCCR1B
  | TIMSK1
deriving DecidableEq, Repr

/-- Read an 8 bit register. -/
def Avr.get (s : Avr) : Reg8 → Nat
  | .PRR => s.PRR
  | .TCCR1A => s.TCCR1A
  | .TCCR1B => s.TCCR1B
  | .TIMSK1 => s.TIMSK1

/-- Store into an 8 bit register: the value is reduced to 8 bits. -/
def Avr.set (s : Avr) (r : Reg8) (v : Nat) : Avr :=
  match r with
  | .PRR => { s with PRR := v % 256 }
  | .TCCR1A => { s with TCCR1A := v % 256 }
  | .TCCR1B => { s with TCCR1B := v % 256 }
  | .TIMSK1 => { s with TIMSK1 := v % 256 }

/-- The `int` expression `(1 << k)`. -/
def bitMask (k : Nat) : Nat := (1 <<< k) % 65536

/-- The `int` expression `~m`, as the 16 bit pattern. -/
def compl16 (m : Nat) : Nat := (m ^^^ 65535) % 65536

/-- The statements the timer primitives are made of. -/
inductive Stmt where
  /-- The statement `noInterrupts();` -/
  | noInterrupts
  /-- The statement `interrupts();` -/
  | interrupts
  /-- The statement `r |= m;` -/
  | orAssign (r : Reg8) (m : Nat)
  /-- The statement `r &= m;` -/
  | andAssign (r : Reg8) (m : Nat)
  /-- The statement `TCNT1 = v;` -/
  | assignTCNT1 (v : Nat)
  /-- The statement `OCR1A = v;` -/
  | assignOCR1A (v : Nat)
deriving DecidableEq, Repr

/-- A statement that stores into a timer register. -/
def Stmt.isWrite : Stmt → Bool
  | .noInterrupts => false
  | .interrupts => false
  | _ => true

/-- Effect of one statement.  `noInterrupts()` clears the global interrupt enable
flag (`cli`), `interrupts()` sets it (`sei`). -/
def Stmt.exec (st : Stmt) (s : Avr) : Avr :=
  match st with
  | .noInterrupts => { s with sregI := false }
  | .interrupts => { s with sregI := true }
  | .orAssign r m => s.set r (s.get r ||| m)
  | .andAssign r m => s.set r (s.get r &&& m)
  | .assignTCNT1 v => { s with TCNT1 := v % 65536 }
  | .assignOCR1A v => { s with OCR1A := v % 65536 }

/-- Run statements in sequence. -/
def run : List Stmt → Avr → Avr
  | [], s => s
  | st :: rest, s => run rest (st.exec s)

/-- Every register store of the sequence, run from `s`, happens while the global
interrupt enable flag is clear. -/
def writesMasked : List Stmt → Avr → Prop
  | [], _ => True
  | st :: rest, s => (st.isWrite = true → s.sregI = false) ∧ writesMasked rest (st.exec s)

/-! ## utils.h : the timer primitives -/

/-- Body of `setupTimer1`. -/
def setupTimer1Body (b : Timer1Bits) : List Stmt :=
  [ .noInterrupts,
    -- Enable Timer1
    .andAssign .PRR (compl16 (bitMask b.PRTIM1)),
    -- Set Timer1 to count up to the compare value and then reset
    .andAssign .TCCR1A (compl16 (bitMask b.WGM10 ||| bitMask b.WGM11)),
    .orAssign .TCCR1B (bitMask b.WGM12),
    .andAssign .TCCR1B (compl16 (bitMask b.WGM13)),
    -- Set Timer1 interrupts for compare value reached
    .orAssign .TIMSK1 (bitMask b.OCIE1A),
    .interrupts ]

/-- The function `void setupTimer1(void)`. -/
def setupTimer1 (b : Timer1Bits) (s : Avr) : Avr := run (setupTimer1Body b) s

/-- Body of `setTimer1Bpm`; the argument is converted to `uint8_t`. -/
def setTimer1BpmBody (undef bpm : Nat) : List Stmt :=
  [ .assignOCR1A (compareValue undef (bpm % 256)) ]

/-- The function `void setTimer1Bpm(uint8_t bpm)`. -/
def setTimer1Bpm (undef bpm : Nat) (s : Avr) : Avr := run (setTimer1BpmBody undef bpm) s

/-- Body of `startTimer1`. -/
def startTimer1Body (b : Timer1Bits) : List Stmt :=
  [ .noInterrupts,
    -- Start the timer (prescaler set to 64)
    .assignTCNT1 0,
    .orAssign .TCCR1B (bitMask b.CS11 ||| bitMask b.CS10),
    .andAssign .TCCR1B (compl16 (bitMask b.CS12)),
    .interrupts ]

/-- The function `void startTimer1(void)`. -/
def startTimer1 (b : Timer1Bits) (s : Avr) : Avr := run (startTimer1Body b) s

/-- Body of `stopTimer1`. -/
def stopTimer1Body (b : Timer1Bits) : List Stmt :=
  [ .noInterrupts,
    -- Stop the timer
    .andAssign .TCCR1B (compl16 (bitMask b.CS12 ||| bitMask b.CS11 ||| bitMask b.CS10)),
    .interrupts ]

/-- The function `void stopTimer1(void)`. -/
def stopTimer1 (b : Timer1Bits) (s : Avr) : Avr := run (stopTimer1Body b) s

/-! ## utils.h : tick handlers -/

/-- The function `uint8_t flipPinState(uint8_t pinState)`; `HIGH` and `LOW` are
the constants of the Arduino core, parameters here. -/
def flipPinState (HIGH LOW : Nat) (pinState : Nat) : Nat :=
  (if pinState % 256 = HIGH then LOW else HIGH) % 256

/-- The call `digitalWrite(pin_id, val)` of the Arduino core: the pin is driven low
when `val` is `LOW` and high otherwise. -/
def digitalWrite (LOW : Nat) (pin_id val : Nat) (s : Avr) : Avr :=
  { s with pins := fun p => if p = pin_id then !(decide (val = LOW)) else s.pins p }

/-- State of a handler made by `CREATE_TICK_HANDLER`: its `static uint8_t state` and
the machine. -/
structure Tick where
  state : Nat
  mcu : Avr

/-- State at reset: `static uint8_t state = LOW;`. -/
def Tick.reset (LOW : Nat) (mcu : Avr) : Tick := { state := LOW % 256, mcu := mcu }

/-- One invocation of the handler defined by `CREATE_TICK_HANDLER(name, pin_id)`. -/
def CREATE_TICK_HANDLER (HIGH LOW : Nat) (pin_id : Nat) (t : Tick) : Tick :=
  { state := flipPinState HIGH LOW t.state,
    mcu := digitalWrite LOW pin_id t.state t.mcu }

/-- The value the `n`-th invocation since reset (`n ≥ 1`) passes to `digitalWrite`:
the static variable after `n - 1` invocations. -/
def written (HIGH LOW : Nat) (pin_id : Nat) (mcu : Avr) (n : Nat) : Nat :=
  ((CREATE_TICK_HANDLER HIGH LOW pin_id)^[n - 1] (Tick.reset LOW mcu)).state

/-- A state with all registers clear and interrupts disabled. -/
def Avr.zero : Avr :=
  { PRR := 0, TCCR1A := 0, TCCR1B := 0, TIMSK1 := 0, TCNT1 := 0, OCR1A := 0,
    sregI := false, pins := fun _ => false }

/-- A state with Timer1 running at clock / 1024 in fast PWM mode and a nonzero
counter. -/
def Avr.sample : Avr :=
  { PRR := 0xFF, TCCR1A := 0xA3, TCCR1B := 0x1D, TIMSK1 := 0x20, TCNT1 := 1234,
    OCR1A := 40000, sregI := true, pins := fun p => decide (p = 5) }

/-- The state `Avr.sample` with interrupts disabled, as inside an interrupt handler. -/
def Avr.masked : Avr := { Avr.sample with sregI := false }

/-! ## Checks of the binary32 model -/

/-- An integer halfway between two binary32 numbers goes to the even significand. -/
theorem ofNat_tie_to_even :
    F32.ofNat 16777217 = .fin 8388608 1 ∧ F32.ofNat 16777219 = .fin 8388610 1 := by
  decide

/-- The quotient `1.0f / 10.0f` is the binary32 number `0x3DCCCCCD`. -/
theorem one_div_ten : (F32.ofNat 1).div (F32.ofNat 10) = .fin 13421773 (-27) := by
  decide

/-- Division by zero gives `+∞`, whose conversion to `uint16_t` is unspecified. -/
theorem compareQuotient_zero : compareQuotient 0 = .inf ∧ compareValue 7 0 = 7 := by
  decide

/-! ## Bits of the register expressions -/

theorem testBit_bitMask (k i : Nat) :
    (bitMask k).testBit i = (decide (i < 16) && decide (k = i)) := by
  unfold bitMask
  rw [show (65536 : Nat) = 2 ^ 16 from rfl, Nat.testBit_mod_two_pow, Nat.one_shiftLeft,
    Nat.testBit_two_pow]

theorem testBit_bitMask_of_lt (k i : Nat) (hk : k < 8) :
    (bitMask k).testBit i = decide (k = i) := by
  rw [testBit_bitMask]
  by_cases h : k = i
  · have : i < 16 := by omega
    simp [h, this]
  · simp [h]

theorem testBit_compl16 (m i : Nat) :
    (compl16 m).testBit i = (decide (i < 16) && !m.testBit i) := by
  unfold compl16
  rw [show (65536 : Nat) = 2 ^ 16 from rfl, Nat.testBit_mod_two_pow, Nat.testBit_xor,
    show (65535 : Nat) = 2 ^ 16 - 1 from rfl, Nat.testBit_two_pow_sub_one]
  by_cases h : i < 16 <;> simp [h]

theorem testBit_mod256 (v i : Nat) :
    (v % 256).testBit i = (decide (i < 8) && v.testBit i) := by
  rw [show (256 : Nat) = 2 ^ 8 from rfl, Nat.testBit_mod_two_pow]

theorem testBit_of_lt_256 (v i : Nat) (hv : v < 256) (hi : 8 ≤ i) : v.testBit i = false :=
  Nat.testBit_lt_two_pow
    (lt_of_lt_of_le hv (show 2 ^ 8 ≤ 2 ^ i from Nat.pow_le_pow_right (Nat.succ_pos 1) hi))

/-! ## The registers after each primitive -/

theorem startTimer1_TCCR1B (b : Timer1Bits) (s : Avr) :
    (startTimer1 b s).TCCR1B =
      ((s.TCCR1B ||| (bitMask b.CS11 ||| bitMask b.CS10)) % 256 &&&
        compl16 (bitMask b.CS12)) % 256 := rfl

theorem stopTimer1_TCCR1B (b : Timer1Bits) (s : Avr) :
    (stopTimer1 b s).TCCR1B =
      (s.TCCR1B &&& compl16 (bitMask b.CS12 ||| bitMask b.CS11 ||| bitMask b.CS10)) % 256 :=
  rfl

theorem setupTimer1_PRR (b : Timer1Bits) (s : Avr) :
    (setupTimer1 b s).PRR = (s.PRR &&& compl16 (bitMask b.PRTIM1)) % 256 := rfl

theorem setupTimer1_TCCR1A (b : Timer1Bits) (s : Avr) :
    (setupTimer1 b s).TCCR1A =
      (s.TCCR1A &&& compl16 (bitMask b.WGM10 ||| bitMask b.WGM11)) % 256 := rfl

theorem setupTimer1_TCCR1B (b : Timer1Bits) (s : Avr) :
    (setupTimer1 b s).TCCR1B =
      ((s.TCCR1B ||| bitMask b.WGM12) % 256 &&& compl16 (bitMask b.WGM13)) % 256 := rfl

theorem setupTimer1_TIMSK1 (b : Timer1Bits) (s : Avr) :
    (setupTimer1 b s).TIMSK1 = (s.TIMSK1 ||| bitMask b.OCIE1A) % 256 := rfl

/-! ## The compare value in closed form -/

/-- Over the supported tempo range the `float` quotient has integer part
`625000 / bpm`: checked by evaluating the binary32 model at each of the 221 tempi. -/
theorem compareQuotient_trunc :
    ∀ bpm, bpm < 251 → 30 ≤ bpm → (compareQuotient bpm).trunc? = some (625000 / bpm) := by
  decide!

theorem compareValue_eq (undef bpm : Nat) (hlo : 30 ≤ bpm) (hhi : bpm ≤ 250) :
    compareValue undef bpm = 625000 / bpm := by
  have hlt : 625000 / bpm < 65536 :=
    lt_of_le_of_lt (Nat.div_le_div_left hlo (by decide)) (by decide)
  simp [compareValue, F32.toUint16, compareQuotient_trunc bpm (by omega) hlo, hlt]

theorem setTimer1Bpm_OCR1A (undef bpm : Nat) (s : Avr) (hlo : 30 ≤ bpm) (hhi : bpm ≤ 250) :
    (setTimer1Bpm undef bpm s).OCR1A = 625000 / bpm := by
  have hlt : 625000 / bpm < 65536 :=
    lt_of_le_of_lt (Nat.div_le_div_left hlo (by decide)) (by decide)
  have hb : bpm % 256 = bpm := Nat.mod_eq_of_lt (by omega)
  show compareValue undef (bpm % 256) % 65536 = 625000 / bpm
  rw [hb, compareValue_eq undef bpm hlo hhi, Nat.mod_eq_of_lt hlt]

theorem floor_exact_quotient (bpm : Nat) (h : 0 < bpm) :
    ⌊((16000000 : ℚ) / 64) / ((bpm : ℚ) / 60 * 24)⌋₊ = 625000 / bpm := by
  have hb : (bpm : ℚ) ≠ 0 := by positivity
  have e : ((16000000 : ℚ) / 64) / ((bpm : ℚ) / 60 * 24)
      = ((625000 : ℕ) : ℚ) / ((bpm : ℕ) : ℚ) := by
    field_simp
    ring
  rw [e, Nat.floor_div_eq_div]

theorem frequency_error_bound (bpm : Nat) (h1 : 30 ≤ bpm) (h2 : bpm ≤ 250) :
    |(250000 : ℚ) / ((625000 / bpm : ℕ) : ℚ) - (bpm : ℚ) * 24 / 60|
      ≤ 1 / 1000 * ((bpm : ℚ) * 24 / 60) := by
  have hc : 2500 ≤ 625000 / bpm := by
    calc 2500 = 625000 / 250 := by norm_num
      _ ≤ 625000 / bpm := Nat.div_le_div_left h2 (by omega)
  have hm : 625000 / bpm * bpm ≤ 625000 := Nat.div_mul_le_self _ _
  have hm2 : 625000 < (625000 / bpm + 1) * bpm := by
    have := Nat.div_add_mod 625000 bpm
    have := Nat.mod_lt 625000 (show bpm > 0 by omega)
    nlinarith
  generalize 625000 / bpm = c at hc hm hm2
  have hC : (2500 : ℚ) ≤ (c : ℚ) := by exact_mod_cast hc
  have hM : (c : ℚ) * bpm ≤ 625000 := by exact_mod_cast hm
  have hM2 : (625000 : ℚ) < ((c : ℚ) + 1) * bpm := by exact_mod_cast hm2
  have hB : (bpm : ℚ) ≤ 250 := by exact_mod_cast h2
  have hB1 : (30 : ℚ) ≤ bpm := by exact_mod_cast h1
  have hpos : (0 : ℚ) < c := by linarith
  rw [abs_le]
  constructor
  · have : (bpm : ℚ) * 24 / 60 ≤ 250000 / (c : ℚ) := by
      rw [le_div_iff₀ hpos]
      linarith
    linarith
  · have : 250000 / (c : ℚ) ≤ (1 + 1 / 1000) * ((bpm : ℚ) * 24 / 60) := by
      rw [div_le_iff₀ hpos]
      nlinarith
    linarith

/-! ## The static variable of a tick handler -/

theorem tick_state (HIGH LOW pin_id : Nat) (mcu : Avr) (hH : HIGH < 256) (hL : LOW < 256)
    (hne : HIGH ≠ LOW) (k : Nat) :
    ((CREATE_TICK_HANDLER HIGH LOW pin_id)^[k] (Tick.reset LOW mcu)).state
      = if Even k then LOW else HIGH := by
  induction k with
  | zero => simp [Tick.reset, Nat.mod_eq_of_lt hL]
  | succ k ih =>
    rw [Function.iterate_succ_apply']
    simp only [CREATE_TICK_HANDLER, ih, flipPinState, Nat.even_add_one]
    by_cases hk : Even k
    · simp [hk, Nat.mod_eq_of_lt hL, Nat.mod_eq_of_lt hH, Ne.symm hne]
    · simp [hk, Nat.mod_eq_of_lt hL, Nat.mod_eq_of_lt hH]

theorem written_eq (HIGH LOW pin_id : Nat) (mcu : Avr) (hH : HIGH < 256) (hL : LOW < 256)
    (hne : HIGH ≠ LOW) (n : Nat) (hn : 1 ≤ n) :
    written HIGH LOW pin_id mcu n = if Even n then HIGH else LOW := by
  obtain ⟨k, rfl⟩ : ∃ k, n = k + 1 := ⟨n - 1, by omega⟩
  unfold written
  rw [Nat.add_sub_cancel, tick_state HIGH LOW pin_id mcu hH hL hne]
  by_cases hk : Even k <;> simp [hk, Nat.even_add_one]

theorem tick_pin (HIGH LOW pin_id : Nat) (t : Tick) :
    (CREATE_TICK_HANDLER HIGH LOW pin_id t).mcu.pins pin_id = !(decide (t.state = LOW)) := by
  simp [CREATE_TICK_HANDLER, digitalWrite]

/-! ## Tempo to period conversion -/

/-- Claim C1: for every tempo `bpm` in [30, 250] the value `setTimer1Bpm(bpm)` loads
into `OCR1A` is the exact quotient `(16000000 / 64) / (bpm / 60 * 24)` truncated to an
integer, which is `625000 / bpm` in integer division; it is at most 65535, and it is
the integer part of the `float` quotient itself, so the conversion to `uint16_t`
drops only the fraction.  The tempi 120, 30 and 250 give 5208, 20833 and 2500. -/
theorem setTimer1Bpm_loads_truncated_quotient (undef bpm : Nat) (s : Avr)
    (hlo : MIN_BPM ≤ bpm) (hhi : bpm ≤ MAX_BPM) :
    (setTimer1Bpm undef bpm s).OCR1A
        = ⌊((16000000 : ℚ) / 64) / ((bpm : ℚ) / 60 * 24)⌋₊ ∧
      (setTimer1Bpm undef bpm s).OCR1A = 625000 / bpm ∧
      (setTimer1Bpm undef bpm s).OCR1A ≤ 65535 ∧
      (compareQuotient bpm).trunc? = some (setTimer1Bpm undef bpm s).OCR1A ∧
      (setTimer1Bpm undef 120 s).OCR1A = 5208 ∧
      (setTimer1Bpm undef 30 s).OCR1A = 20833 ∧
      (setTimer1Bpm undef 250 s).OCR1A = 2500 := by
  have h30 : 30 ≤ bpm := hlo
  have h250 : bpm ≤ 250 := hhi
  have hle : 625000 / bpm ≤ 65535 :=
    le_trans (Nat.div_le_div_left h30 (by decide)) (by decide)
  rw [setTimer1Bpm_OCR1A undef bpm s h30 h250, floor_exact_quotient bpm (by omega),
    setTimer1Bpm_OCR1A undef 120 s (by decide) (by decide),
    setTimer1Bpm_OCR1A undef 30 s (by decide) (by decide),
    setTimer1Bpm_OCR1A undef 250 s (by decide) (by decide)]
  exact ⟨rfl, rfl, hle, compareQuotient_trunc bpm (by omega) h30, rfl, rfl, rfl⟩

/-- Witness of C1 at the default tempo 120. -/
theorem setTimer1Bpm_loads_truncated_quotient_witness :
    MIN_BPM ≤ DEFAULT_BPM ∧ DEFAULT_BPM ≤ MAX_BPM ∧
      (setTimer1Bpm 0 DEFAULT_BPM Avr.zero).OCR1A = 625000 / DEFAULT_BPM :=
  ⟨by decide, by decide,
    (setTimer1Bpm_loads_truncated_quotient 0 DEFAULT_BPM Avr.zero (by decide) (by decide)).2.1⟩

/-- Claim C2: for tempi `a ≤ b` in [30, 250] the compare value `setTimer1Bpm` computes
and loads for `b` is at most the one for `a`. -/
theorem compare_value_antitone (undef a b : Nat) (s : Avr)
    (ha : MIN_BPM ≤ a) (hab : a ≤ b) (hb : b ≤ MAX_BPM) :
    compareValue undef b ≤ compareValue undef a ∧
      (setTimer1Bpm undef b s).OCR1A ≤ (setTimer1Bpm undef a s).OCR1A := by
  have h1 : 30 ≤ a := ha
  have h2 : b ≤ 250 := hb
  rw [compareValue_eq undef a h1 (by omega), compareValue_eq undef b (by omega) h2,
    setTimer1Bpm_OCR1A undef a s h1 (by omega), setTimer1Bpm_OCR1A undef b s (by omega) h2]
  exact ⟨Nat.div_le_div_left hab (by omega), Nat.div_le_div_left hab (by omega)⟩

/-- Witness of C2 at the tempi 100 and 101. -/
theorem compare_value_antitone_witness :
    MIN_BPM ≤ 100 ∧ 100 ≤ 101 ∧ 101 ≤ MAX_BPM ∧
      (setTimer1Bpm 0 101 Avr.zero).OCR1A ≤ (setTimer1Bpm 0 100 Avr.zero).OCR1A :=
  ⟨by decide, by decide, by decide,
    (compare_value_antitone 0 100 101 Avr.zero (by decide) (by decide) (by decide)).2⟩

/-- Claim C3: for every tempo `bpm` in [30, 250], with `c` the value `setTimer1Bpm(bpm)`
writes to `OCR1A`, the frequency `250000 / c` differs from the ideal
`bpm * 24 / 60` by at most one thousandth of the ideal. -/
theorem realized_frequency_within_one_permille (undef bpm : Nat) (s : Avr)
    (hlo : MIN_BPM ≤ bpm) (hhi : bpm ≤ MAX_BPM) :
    |(250000 : ℚ) / ((setTimer1Bpm undef bpm s).OCR1A : ℚ) - (bpm : ℚ) * 24 / 60|
      ≤ 1 / 1000 * ((bpm : ℚ) * 24 / 60) := by
  rw [setTimer1Bpm_OCR1A undef bpm s hlo hhi]
  exact frequency_error_bound bpm hlo hhi

/-- Witness of C3 at the lowest tempo 30. -/
theorem realized_frequency_within_one_permille_witness :
    MIN_BPM ≤ 30 ∧ 30 ≤ MAX_BPM ∧
      |(250000 : ℚ) / ((setTimer1Bpm 0 30 Avr.zero).OCR1A : ℚ) - ((30 : ℕ) : ℚ) * 24 / 60|
        ≤ 1 / 1000 * (((30 : ℕ) : ℚ) * 24 / 60) :=
  ⟨by decide, by decide,
    realized_frequency_within_one_permille 0 30 Avr.zero (by decide) (by decide)⟩

/-! ## Timer controller -/

/-- Claim C4: for every state and every argument `setTimer1Bpm` changes only `OCR1A`:
the counter `TCNT1`, the control registers `TCCR1A` and `TCCR1B`, `TIMSK1` and `PRR`
(and the interrupt flag and the pins) are as before the call. -/
theorem setTimer1Bpm_changes_only_OCR1A (undef bpm : Nat) (s : Avr) :
    (setTimer1Bpm undef bpm s).TCNT1 = s.TCNT1 ∧
      (setTimer1Bpm undef bpm s).TCCR1A = s.TCCR1A ∧
      (setTimer1Bpm undef bpm s).TCCR1B = s.TCCR1B ∧
      (setTimer1Bpm undef bpm s).TIMSK1 = s.TIMSK1 ∧
      (setTimer1Bpm undef bpm s).PRR = s.PRR ∧
      (setTimer1Bpm undef bpm s).sregI = s.sregI ∧
      (setTimer1Bpm undef bpm s).pins = s.pins :=
  ⟨rfl, rfl, rfl, rfl, rfl, rfl, rfl⟩

/-- Claim C5: after `startTimer1()` the counter `TCNT1` is 0 and the prescaler bits of
`TCCR1B` are `CS12 = 0`, `CS11 = 1`, `CS10 = 1` whatever they were; every other bit of
`TCCR1B`, among them `WGM12` and `WGM13`, and the register `OCR1A` are unchanged. -/
theorem startTimer1_sets_prescaler_64 (b : Timer1Bits) (s : Avr) (hb : b.WF) (hs : s.WF) :
    (startTimer1 b s).TCNT1 = 0 ∧
      (startTimer1 b s).TCCR1B.testBit b.CS12 = false ∧
      (startTimer1 b s).TCCR1B.testBit b.CS11 = true ∧
      (startTimer1 b s).TCCR1B.testBit b.CS10 = true ∧
      (∀ i, i ≠ b.CS12 → i ≠ b.CS11 → i ≠ b.CS10 →
        (startTimer1 b s).TCCR1B.testBit i = s.TCCR1B.testBit i) ∧
      (startTimer1 b s).TCCR1B.testBit b.WGM12 = s.TCCR1B.testBit b.WGM12 ∧
      (startTimer1 b s).TCCR1B.testBit b.WGM13 = s.TCCR1B.testBit b.WGM13 ∧
      (startTimer1 b s).OCR1A = s.OCR1A := by
  obtain ⟨-, ⟨-, -, h10, h11, h12⟩, -, ⟨d1, d2, d3⟩, ⟨w1, w2, w3⟩, ⟨v1, v2, v3⟩⟩ := hb
  obtain ⟨-, -, hB, -, -, -⟩ := hs
  have e1 : b.CS12 < 16 := by omega
  have e2 : b.CS11 < 16 := by omega
  have e3 : b.CS10 < 16 := by omega
  have other : ∀ i, i ≠ b.CS12 → i ≠ b.CS11 → i ≠ b.CS10 →
      (startTimer1 b s).TCCR1B.testBit i = s.TCCR1B.testBit i := by
    intro i i1 i2 i3
    by_cases h8 : i < 8
    · have h16 : i < 16 := by omega
      simp [startTimer1_TCCR1B, testBit_mod256, testBit_bitMask_of_lt, testBit_compl16, *,
        Ne.symm i1, Ne.symm i2, Ne.symm i3]
    · simp [startTimer1_TCCR1B, testBit_mod256, h8,
        testBit_of_lt_256 _ _ hB (Nat.le_of_not_lt h8)]
  refine ⟨rfl, ?_, ?_, ?_, other, ?_, ?_, rfl⟩
  · simp [startTimer1_TCCR1B, testBit_mod256, testBit_bitMask_of_lt, testBit_compl16, *]
  · simp [startTimer1_TCCR1B, testBit_mod256, testBit_bitMask_of_lt, testBit_compl16, *,
      Ne.symm d3]
  · simp [startTimer1_TCCR1B, testBit_mod256, testBit_bitMask_of_lt, testBit_compl16, *,
      Ne.symm d2]
  · exact other _ (Ne.symm w3) (Ne.symm w2) (Ne.symm w1)
  · exact other _ (Ne.symm v3) (Ne.symm v2) (Ne.symm v1)

/-- Witness of C5 on the ATmega328P with the timer at clock / 1024 in fast PWM mode. -/
theorem startTimer1_sets_prescaler_64_witness :
    atmega328p.WF ∧ Avr.sample.WF ∧
      (startTimer1 atmega328p Avr.sample).TCNT1 = 0 ∧
      (startTimer1 atmega328p Avr.sample).TCCR1B.testBit atmega328p.CS12 = false ∧
      (startTimer1 atmega328p Avr.sample).TCCR1B.testBit atmega328p.CS11 = true :=
  ⟨by decide, by decide,
    (startTimer1_sets_prescaler_64 atmega328p Avr.sample (by decide) (by decide)).1,
    (startTimer1_sets_prescaler_64 atmega328p Avr.sample (by decide) (by decide)).2.1,
    (startTimer1_sets_prescaler_64 atmega328p Avr.sample (by decide) (by decide)).2.2.1⟩

/-- Claim C6, as stated, fails: entered with interrupts disabled, `stopTimer1` returns
with the global interrupt enable flag set, so the state after the call is not the state
before it with only `TCCR1B` changed. -/
theorem stopTimer1_changes_interrupt_flag :
    Avr.masked.sregI = false ∧
      (stopTimer1 atmega328p Avr.masked).sregI = true ∧
      stopTimer1 atmega328p Avr.masked
        ≠ { Avr.masked with TCCR1B := (stopTimer1 atmega328p Avr.masked).TCCR1B } := by
  refine ⟨rfl, rfl, ?_⟩
  intro h
  have hI := congrArg Avr.sregI h
  revert hI
  decide

/-- Claim C6, amended: after `stopTimer1()` the bits `CS12`, `CS11`, `CS10` of `TCCR1B`
are 0; the other bits of `TCCR1B`, the counter `TCNT1`, `OCR1A`, `TIMSK1` (and `TCCR1A`,
`PRR`) and the level of every pin are as before the call; the one other change is that
the global interrupt enable flag is set on exit. -/
theorem stopTimer1_clears_prescaler_enables_interrupts (b : Timer1Bits) (s : Avr) (hb : b.WF)
    (hs : s.WF) :
    (stopTimer1 b s).TCCR1B.testBit b.CS12 = false ∧
      (stopTimer1 b s).TCCR1B.testBit b.CS11 = false ∧
      (stopTimer1 b s).TCCR1B.testBit b.CS10 = false ∧
      (∀ i, i ≠ b.CS12 → i ≠ b.CS11 → i ≠ b.CS10 →
        (stopTimer1 b s).TCCR1B.testBit i = s.TCCR1B.testBit i) ∧
      (stopTimer1 b s).TCNT1 = s.TCNT1 ∧
      (stopTimer1 b s).OCR1A = s.OCR1A ∧
      (stopTimer1 b s).TIMSK1 = s.TIMSK1 ∧
      (stopTimer1 b s).TCCR1A = s.TCCR1A ∧
      (stopTimer1 b s).PRR = s.PRR ∧
      (stopTimer1 b s).pins = s.pins ∧
      (stopTimer1 b s).sregI = true := by
  obtain ⟨-, ⟨-, -, h10, h11, h12⟩, -, -, -, -⟩ := hb
  obtain ⟨-, -, hB, -, -, -⟩ := hs
  have e1 : b.CS12 < 16 := by omega
  have e2 : b.CS11 < 16 := by omega
  have e3 : b.CS10 < 16 := by omega
  refine ⟨?_, ?_, ?_, ?_, rfl, rfl, rfl, rfl, rfl, rfl, rfl⟩
  · simp [stopTimer1_TCCR1B, testBit_mod256, testBit_bitMask_of_lt, testBit_compl16, *]
  · simp [stopTimer1_TCCR1B, testBit_mod256, testBit_bitMask_of_lt, testBit_compl16, *]
  · simp [stopTimer1_TCCR1B, testBit_mod256, testBit_bitMask_of_lt, testBit_compl16, *]
  · intro i i1 i2 i3
    by_cases h8 : i < 8
    · have h16 : i < 16 := by omega
      simp [stopTimer1_TCCR1B, testBit_mod256, testBit_bitMask_of_lt, testBit_compl16, *,
        Ne.symm i1, Ne.symm i2, Ne.symm i3]
    · simp [stopTimer1_TCCR1B, testBit_mod256, h8,
        testBit_of_lt_256 _ _ hB (Nat.le_of_not_lt h8)]

/-- Witness of the amended C6 on the ATmega328P with the timer running. -/
theorem stopTimer1_clears_prescaler_enables_interrupts_witness :
    atmega328p.WF ∧ Avr.sample.WF ∧
      (stopTimer1 atmega328p Avr.sample).TCCR1B.testBit atmega328p.CS12 = false ∧
      (stopTimer1 atmega328p Avr.sample).TCCR1B.testBit atmega328p.CS11 = false ∧
      (stopTimer1 atmega328p Avr.sample).TCCR1B.testBit atmega328p.CS10 = false :=
  ⟨by decide, by decide,
    (stopTimer1_clears_prescaler_enables_interrupts atmega328p Avr.sample (by decide) (by decide)).1,
    (stopTimer1_clears_prescaler_enables_interrupts atmega328p Avr.sample (by decide) (by decide)).2.1,
    (stopTimer1_clears_prescaler_enables_interrupts atmega328p Avr.sample (by decide) (by decide)).2.2.1⟩

/-- Claim C7: `startTimer1` and `stopTimer1` are idempotent: a second call leaves the
state the first call produced. -/
theorem start_stop_idempotent (b : Timer1Bits) (s : Avr) :
    startTimer1 b (startTimer1 b s) = startTimer1 b s ∧
      stopTimer1 b (stopTimer1 b s) = stopTimer1 b s := by
  constructor
  · simp only [startTimer1, startTimer1Body, run, Stmt.exec, Avr.set, Avr.get]
    congr 1
    apply Nat.eq_of_testBit_eq
    intro i
    simp only [testBit_mod256, Nat.testBit_land, Nat.testBit_lor]
    cases s.TCCR1B.testBit i <;> cases decide (i < 8) <;>
      cases (bitMask b.CS11).testBit i <;> cases (bitMask b.CS10).testBit i <;>
      cases (compl16 (bitMask b.CS12)).testBit i <;> rfl
  · simp only [stopTimer1, stopTimer1Body, run, Stmt.exec, Avr.set, Avr.get]
    congr 1
    apply Nat.eq_of_testBit_eq
    intro i
    simp only [testBit_mod256, Nat.testBit_land]
    cases s.TCCR1B.testBit i <;> cases decide (i < 8) <;>
      cases (compl16 (bitMask b.CS12 ||| bitMask b.CS11 ||| bitMask b.CS10)).testBit i <;>
      rfl

/-- Claim C8: after `setupTimer1()` the waveform bits are `WGM13 = 0`, `WGM12 = 1`,
`WGM11 = 0`, `WGM10 = 0`, the bit `OCIE1A` of `TIMSK1` is 1 and the bit `PRTIM1` of
`PRR` is 0; the prescaler bits `CS12`, `CS11`, `CS10`, the counter `TCNT1` and
`OCR1A` are unchanged. -/
theorem setupTimer1_selects_ctc_mode (b : Timer1Bits) (s : Avr) (hb : b.WF) :
    (setupTimer1 b s).TCCR1B.testBit b.WGM13 = false ∧
      (setupTimer1 b s).TCCR1B.testBit b.WGM12 = true ∧
      (setupTimer1 b s).TCCR1A.testBit b.WGM11 = false ∧
      (setupTimer1 b s).TCCR1A.testBit b.WGM10 = false ∧
      (setupTimer1 b s).TIMSK1.testBit b.OCIE1A = true ∧
      (setupTimer1 b s).PRR.testBit b.PRTIM1 = false ∧
      (setupTimer1 b s).TCCR1B.testBit b.CS12 = s.TCCR1B.testBit b.CS12 ∧
      (setupTimer1 b s).TCCR1B.testBit b.CS11 = s.TCCR1B.testBit b.CS11 ∧
      (setupTimer1 b s).TCCR1B.testBit b.CS10 = s.TCCR1B.testBit b.CS10 ∧
      (setupTimer1 b s).TCNT1 = s.TCNT1 ∧
      (setupTimer1 b s).OCR1A = s.OCR1A := by
  obtain ⟨⟨p1, p2, p3, p4⟩, ⟨g12, g13, h10, h11, h12⟩, ⟨n1, n2⟩, -, ⟨w1, w2, w3⟩,
    ⟨v1, v2, v3⟩⟩ := hb
  have a1 : b.PRTIM1 < 16 := by omega
  have a2 : b.OCIE1A < 16 := by omega
  have a3 : b.WGM10 < 16 := by omega
  have a4 : b.WGM11 < 16 := by omega
  have a5 : b.WGM12 < 16 := by omega
  have a6 : b.WGM13 < 16 := by omega
  have a7 : b.CS10 < 16 := by omega
  have a8 : b.CS11 < 16 := by omega
  have a9 : b.CS12 < 16 := by omega
  refine ⟨?_, ?_, ?_, ?_, ?_, ?_, ?_, ?_, ?_, rfl, rfl⟩
  · simp [setupTimer1_TCCR1B, testBit_mod256, testBit_bitMask_of_lt, testBit_compl16, *]
  · simp [setupTimer1_TCCR1B, testBit_mod256, testBit_bitMask_of_lt, testBit_compl16, *,
      Ne.symm n2]
  · simp [setupTimer1_TCCR1A, testBit_mod256, testBit_bitMask_of_lt, testBit_compl16, *]
  · simp [setupTimer1_TCCR1A, testBit_mod256, testBit_bitMask_of_lt, testBit_compl16, *]
  · simp [setupTimer1_TIMSK1, testBit_mod256, testBit_bitMask_of_lt, *]
  · simp [setupTimer1_PRR, testBit_mod256, testBit_bitMask_of_lt, testBit_compl16, *]
  · simp [setupTimer1_TCCR1B, testBit_mod256, testBit_bitMask_of_lt, testBit_compl16, *,
      Ne.symm w3, Ne.symm v3]
  · simp [setupTimer1_TCCR1B, testBit_mod256, testBit_bitMask_of_lt, testBit_compl16, *,
      Ne.symm w2, Ne.symm v2]
  · simp [setupTimer1_TCCR1B, testBit_mod256, testBit_bitMask_of_lt, testBit_compl16, *,
      Ne.symm w1, Ne.symm v1]

/-- Witness of C8 on the ATmega328P from a state in fast PWM mode. -/
theorem setupTimer1_selects_ctc_mode_witness :
    atmega328p.WF ∧
      (setupTimer1 atmega328p Avr.sample).TCCR1B.testBit atmega328p.WGM13 = false ∧
      (setupTimer1 atmega328p Avr.sample).TCCR1B.testBit atmega328p.WGM12 = true :=
  ⟨by decide,
    (setupTimer1_selects_ctc_mode atmega328p Avr.sample (by decide)).1,
    (setupTimer1_selects_ctc_mode atmega328p Avr.sample (by decide)).2.1⟩

/-- Claim C9, as stated, fails: entered with interrupts globally disabled, each of
`setupTimer1`, `startTimer1` and `stopTimer1` returns with the global interrupt
enable flag different from its value on entry. -/
theorem interrupt_flag_not_restored :
    Avr.zero.sregI = false ∧
      (setupTimer1 atmega328p Avr.zero).sregI ≠ Avr.zero.sregI ∧
      (startTimer1 atmega328p Avr.zero).sregI ≠ Avr.zero.sregI ∧
      (stopTimer1 atmega328p Avr.zero).sregI ≠ Avr.zero.sregI := by
  decide

/-- Claim C9, amended: in `setupTimer1`, `startTimer1` and `stopTimer1`, from every
state, every register store happens with interrupts disabled, and on exit the global
interrupt enable flag is set, whatever it was on entry. -/
theorem critical_sections_mask_writes_then_enable (b : Timer1Bits) (s : Avr) :
    (writesMasked (setupTimer1Body b) s ∧ (setupTimer1 b s).sregI = true) ∧
      (writesMasked (startTimer1Body b) s ∧ (startTimer1 b s).sregI = true) ∧
      (writesMasked (stopTimer1Body b) s ∧ (stopTimer1 b s).sregI = true) := by
  refine ⟨⟨?_, rfl⟩, ⟨?_, rfl⟩, ⟨?_, rfl⟩⟩
  · simp [writesMasked, setupTimer1Body, Stmt.exec, Stmt.isWrite, Avr.set]
  · simp [writesMasked, startTimer1Body, Stmt.exec, Stmt.isWrite, Avr.set]
  · simp [writesMasked, stopTimer1Body, Stmt.exec, Stmt.isWrite, Avr.set]

/-! ## Tick handlers -/

/-- Claim C10: a handler made by `CREATE_TICK_HANDLER` alternates its output: the first
invocation since reset writes `LOW`, the `n`-th invocation writes `HIGH` exactly when
`n` is even, each invocation after the first writes the level opposite to the one
written by the invocation before it, and the pin is high after `n` invocations exactly
when `n` is even; `flipPinState` maps `HIGH` to `LOW` and `LOW` to `HIGH`, so applying
it twice to either level gives the level back. -/
theorem tick_handler_alternates (HIGH LOW pin_id : Nat) (mcu : Avr)
    (hH : HIGH < 256) (hL : LOW < 256) (hne : HIGH ≠ LOW) :
    (flipPinState HIGH LOW HIGH = LOW ∧ flipPinState HIGH LOW LOW = HIGH ∧
        flipPinState HIGH LOW (flipPinState HIGH LOW HIGH) = HIGH ∧
        flipPinState HIGH LOW (flipPinState HIGH LOW LOW) = LOW) ∧
      written HIGH LOW pin_id mcu 1 = LOW ∧
      (∀ n, 1 ≤ n → (written HIGH LOW pin_id mcu n = HIGH ↔ Even n)) ∧
      (∀ n, 1 ≤ n →
        written HIGH LOW pin_id mcu (n + 1)
            = flipPinState HIGH LOW (written HIGH LOW pin_id mcu n) ∧
          written HIGH LOW pin_id mcu (n + 1) ≠ written HIGH LOW pin_id mcu n) ∧
      (∀ n, 1 ≤ n →
        (((CREATE_TICK_HANDLER HIGH LOW pin_id)^[n] (Tick.reset LOW mcu)).mcu.pins pin_id
            = true ↔ Even n)) := by
  have fH : flipPinState HIGH LOW HIGH = LOW := by
    simp [flipPinState, Nat.mod_eq_of_lt hH, Nat.mod_eq_of_lt hL]
  have fL : flipPinState HIGH LOW LOW = HIGH := by
    simp [flipPinState, Nat.mod_eq_of_lt hH, Nat.mod_eq_of_lt hL, Ne.symm hne]
  have w := written_eq HIGH LOW pin_id mcu hH hL hne
  refine ⟨⟨fH, fL, by rw [fH, fL], by rw [fL, fH]⟩, ?_, ?_, ?_, ?_⟩
  · rw [w 1 le_rfl]
    simp
  · intro n hn
    rw [w n hn]
    by_cases he : Even n
    · simp [he]
    · simp [he, Ne.symm hne]
  · intro n hn
    rw [w n hn, w (n + 1) (by omega)]
    by_cases he : Even n
    · simp [he, Nat.even_add_one, fH, Ne.symm hne]
    · simp [he, Nat.even_add_one, fL, hne]
  · intro n hn
    obtain ⟨k, rfl⟩ : ∃ k, n = k + 1 := ⟨n - 1, by omega⟩
    rw [Function.iterate_succ_apply', tick_pin, tick_state HIGH LOW pin_id mcu hH hL hne]
    by_cases hk : Even k
    · simp [hk, Nat.even_add_one]
    · simp [hk, Nat.even_add_one, hne]

/-- Witness of C10 with the Arduino levels `HIGH = 1`, `LOW = 0` on pin 5. -/
theorem tick_handler_alternates_witness :
    (1 : Nat) < 256 ∧ (0 : Nat) < 256 ∧ (1 : Nat) ≠ 0 ∧ written 1 0 5 Avr.zero 1 = 0 :=
  ⟨by decide, by decide, by decide,
    (tick_handler_alternates 1 0 5 Avr.zero (by decide) (by decide) (by decide)).2.1⟩

end BpmIno
